import Mathlib

set_option maxRecDepth 8000

namespace CanvasMCP

/-- JSON value as decoded by httpx Response.json() (src/api/client.py).
Numbers are modelled as integers; no verified path depends on floats. -/
inductive Json where
  | null
  | bool (b : Bool)
  | num (n : Int)
  | str (s : String)
  | arr (items : List Json)
  | obj (fields : List (String × Json))

/-- Python truthiness of a decoded JSON value, as used by the `or` in
`error_data.get("message") or error_data.get("error", "Unknown error")`
(src/api/client.py line 106). -/
def jsonTruthy : Json → Bool
  | Json.null => false
  | Json.bool b => b
  | Json.num n => n != 0
  | Json.str s => s != ""
  | Json.arr items => !items.isEmpty
  | Json.obj fields => !fields.isEmpty

/-- Python dict.get on a decoded JSON object (first binding wins, as dict keys
are unique). -/
def dictGet (fields : List (String × Json)) (k : String) : Option Json :=
  (fields.find? (fun kv => kv.1 == k)).map (fun kv => kv.2)

/-- Python str() of a decoded JSON value as interpolated into error message
f-strings. Scalar rendering is exact; container rendering is abbreviated, and
no verified property depends on container rendering. -/
def pyStr : Json → String
  | Json.null => "None"
  | Json.bool true => "True"
  | Json.bool false => "False"
  | Json.num n => toString n
  | Json.str s => s
  | Json.arr items => "[" ++ toString items.length ++ " items]"
  | Json.obj fields => "\x7b" ++ toString fields.length ++ " fields\x7d"

/-- Digit run of a decimal literal; none when empty or a non-digit occurs. -/
def parseDigits : List Char → Option Nat
  | [] => none
  | cs =>
    cs.foldl
      (fun acc c =>
        acc.bind (fun a => if c.isDigit then some (a * 10 + (c.toNat - 48)) else none))
      (some 0)

/-- Python int(s) on a string: optional surrounding whitespace, optional sign,
one or more decimal digits; anything else raises ValueError (modelled none). -/
def pyInt (s : String) : Option Int :=
  let cs := ((s.data.dropWhile Char.isWhitespace).reverse.dropWhile Char.isWhitespace).reverse
  match cs with
  | '-' :: rest => (parseDigits rest).map (fun n => -(n : Int))
  | '+' :: rest => (parseDigits rest).map (fun n => (n : Int))
  | rest => (parseDigits rest).map (fun n => (n : Int))

/-- HTTP response as observed by the client: status code, decoded JSON body
(none when the body is not parseable JSON, in which case json() raises),
raw text, and headers. -/
structure HttpResponse where
  status : Nat
  body : Option Json
  text : String
  headers : List (String × String)

/-- Lower-casing for case-insensitive header lookup. -/
def lowerStr (s : String) : String := ⟨s.data.map Char.toLower⟩

/-- Case-insensitive header lookup, matching httpx Headers.get. -/
def headerGet (headers : List (String × String)) (k : String) : Option String :=
  (headers.find? (fun kv => lowerStr kv.1 == lowerStr k)).map (fun kv => kv.2)

/-- httpx Response.is_success: any 2xx status. -/
def isSuccess (r : HttpResponse) : Bool := 200 ≤ r.status && r.status < 300

/-- Typed error taxonomy of src/api/exceptions.py. Each constructor records the
arguments passed at its raise site in CanvasAPIClient._handle_error_response
(src/api/client.py lines 110-135). -/
inductive CanvasError where
  | authError (endpoint : String)
  | notFoundError (resource : String) (endpoint : String)
  | validationError (message : Json) (statusCode : Nat) (endpoint : String)
      (errors : Option (List (String × Json)))
  | rateLimitError (retryAfter : Option Int) (endpoint : String)
  | serverError (statusCode : Nat) (endpoint : String)
  | apiError (message : Json) (statusCode : Nat) (endpoint : String)

/-- Status code stored on the exception by the constructors in
src/api/exceptions.py. -/
def CanvasError.statusCode : CanvasError → Nat
  | CanvasError.authError _ => 401
  | CanvasError.notFoundError _ _ => 404
  | CanvasError.validationError _ st _ _ => st
  | CanvasError.rateLimitError _ _ => 429
  | CanvasError.serverError st _ => st
  | CanvasError.apiError _ st _ => st

/-- Message attribute stored on the exception, after the decorations applied by
the constructors in src/api/exceptions.py (prefixes, retry-after suffix with
Python truthiness on the integer). -/
def CanvasError.message : CanvasError → String
  | CanvasError.authError _ => "Authentication failed. Invalid or expired Canvas API token."
  | CanvasError.notFoundError res _ => "Resource not found: " ++ res
  | CanvasError.validationError m _ _ _ => "Validation error: " ++ pyStr m
  | CanvasError.rateLimitError (some n) _ =>
      if n != 0 then "Rate limit exceeded. Retry after " ++ toString n ++ " seconds."
      else "Rate limit exceeded."
  | CanvasError.rateLimitError none _ => "Rate limit exceeded."
  | CanvasError.serverError _ _ => "Canvas server error. Please try again later."
  | CanvasError.apiError m _ _ => pyStr m

/-- Outcome of a raise in the client: a typed Canvas error, or an untyped
Python exception escaping (recorded by its Python class name). -/
inductive Fault where
  | canvas (e : CanvasError)
  | untyped (exnName : String)

/-- Message extraction of src/api/client.py lines 103-108: parse the body as
JSON and read `message` or `error` (with Python `or` falsiness); a non-dict
parse result makes .get raise AttributeError, which the same except clause
catches; on any failure use the raw text, or "Unknown error" when empty. -/
def extractMessage (body : Option Json) (text : String) : Json :=
  match body with
  | some (Json.obj fs) =>
    let m := (dictGet fs "message").getD Json.null
    if jsonTruthy m then m else (dictGet fs "error").getD (Json.str "Unknown error")
  | _ => if text == "" then Json.str "Unknown error" else Json.str text

/-- Error classifier CanvasAPIClient._handle_error_response (src/api/client.py
lines 90-135). The local `error_data` is bound only when response.json()
succeeds; the 400/422 branch reads it afterwards, so an unparseable body there
raises untyped UnboundLocalError. The 429 branch applies int() to the
Retry-After header, so a present, non-empty, non-numeric header raises untyped
ValueError. Both untyped escapes are modelled by Fault.untyped. -/
def classify (r : HttpResponse) (endpoint : String) : Fault :=
  let errorData := r.body
  let errorMessage := extractMessage r.body r.text
  if r.status == 401 then Fault.canvas (CanvasError.authError endpoint)
  else if r.status == 404 then Fault.canvas (CanvasError.notFoundError endpoint endpoint)
  else if r.status == 400 || r.status == 422 then
    match errorData with
    | none => Fault.untyped "UnboundLocalError"
    | some d =>
      Fault.canvas (CanvasError.validationError errorMessage r.status endpoint
        (match d with
         | Json.obj fs => some fs
         | _ => none))
  else if r.status == 429 then
    match headerGet r.headers "Retry-After" with
    | none => Fault.canvas (CanvasError.rateLimitError none endpoint)
    | some v =>
      if v == "" then Fault.canvas (CanvasError.rateLimitError none endpoint)
      else
        match pyInt v with
        | some n => Fault.canvas (CanvasError.rateLimitError (some n) endpoint)
        | none => Fault.untyped "ValueError"
  else if 500 ≤ r.status then Fault.canvas (CanvasError.serverError r.status endpoint)
  else Fault.canvas (CanvasError.apiError errorMessage r.status endpoint)

/-- C1: the claim says the classifier never raises an untyped exception and in
particular a status-400 response with an unparseable body yields a
ValidationFailure carrying the raw text. The code instead raises
UnboundLocalError there, because `error_data` is unbound when json() failed yet
the 400/422 arm reads it; when the body does parse (even to a non-dict), the
intended classification with the raw-text message is produced. -/
theorem classifier_400_unparsed_body_crashes :
    classify ⟨400, none, "oops", []⟩ "/courses" = Fault.untyped "UnboundLocalError" ∧
    classify ⟨400, some (Json.arr []), "oops", []⟩ "/courses" =
      Fault.canvas (CanvasError.validationError (Json.str "oops") 400 "/courses" none) :=
  ⟨rfl, rfl⟩

/-- C4: the status-to-kind table at concrete inputs. Rows 401, 404, 400/422
with parseable bodies, 429 with a numeric or absent Retry-After, 500 and above,
and the generic fallback all match the claim; but a 429 response whose
Retry-After header is present and non-numeric makes int() raise an untyped
ValueError instead of producing RateLimited. -/
theorem classifier_status_mapping :
    classify ⟨401, some (Json.obj [("message", Json.str "x")]), "x", []⟩ "/ep" =
      Fault.canvas (CanvasError.authError "/ep") ∧
    classify ⟨404, none, "", []⟩ "/ep" =
      Fault.canvas (CanvasError.notFoundError "/ep" "/ep") ∧
    classify ⟨400, some (Json.obj [("error", Json.str "bad")]), "", []⟩ "/ep" =
      Fault.canvas (CanvasError.validationError (Json.str "bad") 400 "/ep"
        (some [("error", Json.str "bad")])) ∧
    classify ⟨422, some (Json.obj []), "", []⟩ "/ep" =
      Fault.canvas (CanvasError.validationError (Json.str "Unknown error") 422 "/ep"
        (some [])) ∧
    classify ⟨429, none, "", [("Retry-After", "5")]⟩ "/ep" =
      Fault.canvas (CanvasError.rateLimitError (some 5) "/ep") ∧
    classify ⟨429, none, "", []⟩ "/ep" =
      Fault.canvas (CanvasError.rateLimitError none "/ep") ∧
    classify ⟨500, none, "", []⟩ "/ep" =
      Fault.canvas (CanvasError.serverError 500 "/ep") ∧
    classify ⟨503, none, "", []⟩ "/ep" =
      Fault.canvas (CanvasError.serverError 503 "/ep") ∧
    classify ⟨418, none, "teapot", []⟩ "/ep" =
      Fault.canvas (CanvasError.apiError (Json.str "teapot") 418 "/ep") ∧
    classify ⟨429, none, "", [("Retry-After", "soon")]⟩ "/ep" = Fault.untyped "ValueError" :=
  ⟨rfl, rfl, rfl, rfl, rfl, rfl, rfl, rfl, rfl, rfl⟩

/-- Scalar query-parameter value as passed in the params dict. -/
inductive PScalar where
  | pstr (v : String)
  | pint (v : Int)
  | pbool (v : Bool)
  | pnone

/-- Python f-string rendering of a scalar parameter value. -/
def scalarStr : PScalar → String
  | PScalar.pstr v => v
  | PScalar.pint v => toString v
  | PScalar.pbool true => "True"
  | PScalar.pbool false => "False"
  | PScalar.pnone => "None"

/-- Query-parameter value: a scalar (possibly None) or a list of scalars. -/
inductive PVal where
  | scalar (v : PScalar)
  | vlist (vs : List PScalar)

/-- Fragments contributed by one (key, value) entry in _build_url
(src/api/client.py lines 78-83): a list value yields one key=item fragment per
item in order, a None value is skipped, any other scalar yields one fragment. -/
def fragmentsFor (k : String) : PVal → List String
  | PVal.vlist vs => vs.map (fun item => k ++ "=" ++ scalarStr item)
  | PVal.scalar PScalar.pnone => []
  | PVal.scalar sv => [k ++ "=" ++ scalarStr sv]

/-- Accumulating loop over the params dict building query_parts
(src/api/client.py lines 77-83). -/
def queryPartsLoop (acc : List String) : List (String × PVal) → List String
  | [] => acc
  | (k, v) :: rest => queryPartsLoop (acc ++ fragmentsFor k v) rest

/-- query_parts as built by _build_url from an empty accumulator. -/
def queryParts (params : List (String × PVal)) : List String := queryPartsLoop [] params

/-- Python str.join: separator between consecutive elements. -/
def joinSep (sep : String) : List String → String
  | [] => ""
  | [x] => x
  | x :: xs => x ++ sep ++ joinSep sep xs

/-- Python rstrip with a single strip character: remove every trailing copy. -/
def pyRstrip (s : String) (c : Char) : String :=
  ⟨(s.data.reverse.dropWhile (fun x => x == c)).reverse⟩

/-- Python str.startswith. -/
def pyStartsWith (s p : String) : Bool := p.data.isPrefixOf s.data

/-- Python str.endswith. -/
def pyEndsWith (s p : String) : Bool := p.data.isSuffixOf s.data

/-- Client construction state: the raw constructor arguments of
CanvasAPIClient.__init__ (src/api/client.py lines 32-46). -/
structure Client where
  apiUrl : String
  apiToken : String

/-- base_url computed in __init__: strip trailing slashes, then reuse the
address when it already ends with /api/v1 and append /api/v1 otherwise. -/
def baseUrl (apiUrl : String) : String :=
  let stripped := pyRstrip apiUrl '/'
  if pyEndsWith stripped "/api/v1" then stripped else stripped ++ "/api/v1"

/-- Endpoint normalization at the top of _build_url: prefix a slash only when
the endpoint does not already start with one. -/
def normEndpoint (endpoint : String) : String :=
  if pyStartsWith endpoint "/" then endpoint else "/" ++ endpoint

/-- Full URL construction _build_url (src/api/client.py lines 56-88). -/
def buildUrl (c : Client) (endpoint : String) (params : List (String × PVal)) : String :=
  let ep := normEndpoint endpoint
  let url := baseUrl c.apiUrl ++ ep
  if params.isEmpty then url
  else
    let parts := queryParts params
    if parts.isEmpty then url
    else url ++ "?" ++ joinSep "&" parts

/-- Query-string suffix of the built URL, empty when no fragment survives. -/
def querySuffix (params : List (String × PVal)) : String :=
  if params.isEmpty then ""
  else if (queryParts params).isEmpty then ""
  else "?" ++ joinSep "&" (queryParts params)

/-- Number of positions at which pat occurs as a contiguous substring of s. -/
def occurrences (pat s : List Char) : Nat := s.tails.countP (fun t => pat.isPrefixOf t)

/-- Character content of the API version path segment. -/
def apiV1Chars : List Char := "/api/v1".data

theorem strData_append (s t : String) : (s ++ t).data = s.data ++ t.data := by
  cases s; cases t; rfl

theorem queryPartsLoop_join (params : List (String × PVal)) :
    ∀ acc, queryPartsLoop acc params =
      acc ++ (params.map (fun kv => fragmentsFor kv.1 kv.2)).flatten := by
  induction params with
  | nil => intro acc; simp [queryPartsLoop]
  | cons kv rest ih =>
    intro acc
    obtain ⟨k, v⟩ := kv
    simp [queryPartsLoop, ih, List.append_assoc]

theorem occurrences_eq_zero_of_short (pat s : List Char) (h : s.length < pat.length) :
    occurrences pat s = 0 := by
  unfold occurrences
  rw [List.countP_eq_zero]
  intro t ht hpre
  have h1 : t <:+ s := (List.mem_tails _ _).mp ht
  have h2 : pat <+: t := List.isPrefixOf_iff_prefix.mp hpre
  have := Nat.le_trans h2.length_le h1.length_le
  omega

theorem occurrences_self : ∀ pat : List Char, pat ≠ [] → occurrences pat pat = 1 := by
  intro pat hne
  match pat, hne with
  | p :: ps, _ =>
    have h0 : occurrences (p :: ps) ps = 0 :=
      occurrences_eq_zero_of_short _ _ (by simp)
    unfold occurrences at h0 ⊢
    rw [List.tails_cons, List.countP_cons, h0]
    simp [List.isPrefixOf_iff_prefix]

theorem occurrences_append_self (pat : List Char) (hne : pat ≠ [])
    (hbf : ∀ r, r <+: pat → r <:+ pat → r = [] ∨ r = pat) :
    ∀ s : List Char, ¬ pat <:+: s → occurrences pat (s ++ pat) = 1 := by
  intro s
  induction s with
  | nil => intro _; simpa using occurrences_self pat hne
  | cons c cs ih =>
    intro hinf
    have hcs : ¬ pat <:+: cs := fun h => hinf (List.infix_cons h)
    have hrec := ih hcs
    have hnotpre : ¬ pat <+: ((c :: cs) ++ pat) := by
      intro hpre
      rcases le_or_lt pat.length (c :: cs).length with hle | hlt
      · have h1 : (c :: cs) <+: ((c :: cs) ++ pat) := List.prefix_append _ _
        have h2 : pat <+: (c :: cs) := List.prefix_of_prefix_length_le hpre h1 hle
        exact hinf h2.isInfix
      · have h1 : (c :: cs) <+: ((c :: cs) ++ pat) := List.prefix_append _ _
        have h2 : (c :: cs) <+: pat :=
          List.prefix_of_prefix_length_le h1 hpre (Nat.le_of_lt hlt)
        obtain ⟨r, hr⟩ := h2
        have hrpre : r <+: pat := by
          have hh : (c :: cs) ++ r <+: (c :: cs) ++ pat := by rw [hr]; exact hpre
          exact (List.prefix_append_right_inj _).mp hh
        have hrsuf : r <:+ pat := by rw [← hr]; exact List.suffix_append _ _
        rcases hbf r hrpre hrsuf with h | h
        · subst h
          rw [List.append_nil] at hr
          rw [← hr] at hlt
          exact lt_irrefl _ hlt
        · subst h
          have := congrArg List.length hr
          simp at this
          omega
    unfold occurrences
    rw [List.cons_append, List.tails_cons, List.countP_cons]
    have hb : pat.isPrefixOf (c :: (cs ++ pat)) = false := by
      rw [← List.cons_append]
      exact Bool.not_eq_true _ |>.mp
        (fun hx => hnotpre (List.isPrefixOf_iff_prefix.mp hx))
    rw [hb]
    unfold occurrences at hrec
    simpa using hrec

theorem apiV1_borderFree :
    ∀ r, r <+: apiV1Chars → r <:+ apiV1Chars → r = [] ∨ r = apiV1Chars := by
  intro r hp hs
  have hmem : r ∈ apiV1Chars.inits := (List.mem_inits _ _).mpr hp
  have hall : ∀ x ∈ apiV1Chars.inits,
      x.isSuffixOf apiV1Chars → x = [] ∨ x = apiV1Chars := by decide
  exact hall r hmem (List.isSuffixOf_iff_suffix.mpr hs)

/-- C5 counterexample: a base address that contains the version segment in the
middle of its path fails the endswith check, so a second copy is appended and
the segment occurs twice; an endpoint already starting with two slashes is
used verbatim, so the built URL does not begin the endpoint with exactly one
slash. -/
theorem url_building_counterexample :
    baseUrl "https://x/api/v1/t" = "https://x/api/v1/t/api/v1" ∧
    occurrences apiV1Chars (baseUrl "https://x/api/v1/t").data = 2 ∧
    buildUrl ⟨"https://x/api/v1/t", "tok"⟩ "//a" [] = "https://x/api/v1/t/api/v1//a" ∧
    normEndpoint "//a" = "//a" ∧
    pyStartsWith (normEndpoint "//a") "//" = true := by
  refine ⟨by decide, by decide, by decide, by decide, by decide⟩

/-- C5 amended: the version segment is appended exactly when the slash-stripped
address does not already end with it and the address is reused unchanged when
it does; when the address does not contain the segment anywhere, the resulting
base contains it exactly once; the built URL is the base followed by the
endpoint and the query suffix, where the endpoint is prefixed with one slash
exactly when it does not already start with one. -/
theorem url_building_amended (apiUrl token endpoint : String)
    (params : List (String × PVal)) :
    (pyEndsWith (pyRstrip apiUrl '/') "/api/v1" = true →
        baseUrl apiUrl = pyRstrip apiUrl '/') ∧
    (pyEndsWith (pyRstrip apiUrl '/') "/api/v1" = false →
        baseUrl apiUrl = pyRstrip apiUrl '/' ++ "/api/v1") ∧
    (¬ apiV1Chars <:+: (pyRstrip apiUrl '/').data →
        occurrences apiV1Chars (baseUrl apiUrl).data = 1) ∧
    buildUrl ⟨apiUrl, token⟩ endpoint params =
      baseUrl apiUrl ++ normEndpoint endpoint ++ querySuffix params ∧
    pyStartsWith (normEndpoint endpoint) "/" = true ∧
    (pyStartsWith endpoint "/" = false → normEndpoint endpoint = "/" ++ endpoint) ∧
    (pyStartsWith endpoint "/" = true → normEndpoint endpoint = endpoint) := by
  refine ⟨?_, ?_, ?_, ?_, ?_, ?_, ?_⟩
  · intro h; simp only [baseUrl]; rw [h]; simp
  · intro h; simp only [baseUrl]; rw [h]; simp
  · intro hinf
    have hends : pyEndsWith (pyRstrip apiUrl '/') "/api/v1" = false := by
      rcases hb : pyEndsWith (pyRstrip apiUrl '/') "/api/v1" with _ | _
      · rfl
      · exfalso
        have hs : apiV1Chars <:+ (pyRstrip apiUrl '/').data :=
          List.isSuffixOf_iff_suffix.mp hb
        exact hinf hs.isInfix
    simp only [baseUrl]
    rw [hends]
    simp only [Bool.false_eq_true, if_false]
    rw [strData_append]
    exact occurrences_append_self apiV1Chars (by decide) apiV1_borderFree _ hinf
  · simp only [buildUrl, querySuffix]
    rcases hp : params.isEmpty with _ | _
    · simp only [Bool.false_eq_true, if_false]
      rcases hq : (queryParts params).isEmpty with _ | _
      · simp [String.append_assoc]
      · simp
    · simp
  · simp only [normEndpoint]
    rcases hs : pyStartsWith endpoint "/" with _ | _
    · simp only [Bool.false_eq_true, if_false]
      unfold pyStartsWith
      rw [strData_append]
      rcases endpoint with ⟨l⟩
      simp [List.isPrefixOf]
    · simpa using hs
  · intro h; simp only [normEndpoint]; rw [h]; simp
  · intro h; simp only [normEndpoint]; rw [h]; simp

/-- C5 amended witness: a clean address gets the segment appended once, and a
bare endpoint is prefixed with one slash. -/
theorem url_building_amended_witness :
    baseUrl "https://canvas.test" = "https://canvas.test/api/v1" ∧
    occurrences apiV1Chars (baseUrl "https://canvas.test").data = 1 ∧
    normEndpoint "courses" = "/courses" := by
  have h := url_building_amended "https://canvas.test" "tok" "courses" []
  exact ⟨h.2.1 (by decide), h.2.2.1 (by decide), h.2.2.2.2.2.1 (by decide)⟩

/-- C6: the encoded query fragments are exactly the per-entry expansions in
dict order: a list value k=[v1..vn] contributes n repeated k=v fragments in the
list order (never joined), a None value contributes nothing, and any other
scalar contributes a single stringified k=v fragment. -/
theorem query_param_expansion :
    (∀ params : List (String × PVal),
      queryParts params = (params.map (fun kv => fragmentsFor kv.1 kv.2)).flatten) ∧
    (∀ (k : String) (vs : List PScalar),
      fragmentsFor k (PVal.vlist vs) = vs.map (fun item => k ++ "=" ++ scalarStr item) ∧
      (fragmentsFor k (PVal.vlist vs)).length = vs.length) ∧
    (∀ k : String, fragmentsFor k (PVal.scalar PScalar.pnone) = []) ∧
    (∀ k s : String, fragmentsFor k (PVal.scalar (PScalar.pstr s)) = [k ++ "=" ++ s]) ∧
    (∀ (k : String) (n : Int),
      fragmentsFor k (PVal.scalar (PScalar.pint n)) = [k ++ "=" ++ toString n]) := by
  refine ⟨?_, ?_, ?_, ?_, ?_⟩
  · intro params
    simpa using queryPartsLoop_join params []
  · intro k vs
    exact ⟨rfl, by simp [fragmentsFor]⟩
  · intro k; rfl
  · intro k s; rfl
  · intro k n; rfl

/-- Python str.split on a single separator character: always at least one
piece, empty pieces preserved, the empty string splitting to [""]. -/
def splitChar (c : Char) : List Char → List (List Char)
  | [] => [[]]
  | x :: rest =>
    let r := splitChar c rest
    if x == c then [] :: r
    else
      match r with
      | [] => [[x]]
      | h :: t => (x :: h) :: t

/-- String-level wrapper of splitChar. -/
def pySplit (s : String) (c : Char) : List String := (splitChar c s.data).map (fun l => ⟨l⟩)

/-- Python str.strip() with no argument: remove surrounding whitespace. -/
def pyStripWs (s : String) : String :=
  ⟨((s.data.dropWhile Char.isWhitespace).reverse.dropWhile Char.isWhitespace).reverse⟩

/-- Python str.strip(chars): remove every leading and trailing character that
belongs to the given set. -/
def pyStripChars (s : String) (cs : List Char) : String :=
  ⟨((s.data.dropWhile (fun x => cs.contains x)).reverse.dropWhile
      (fun x => cs.contains x)).reverse⟩

/-- Contiguous-sublist test over characters. -/
def isInfixOfCL (pat s : List Char) : Bool := s.tails.any (fun t => pat.isPrefixOf t)

/-- Python substring containment (the `in` operator on str). -/
def containsSub (s pat : String) : Bool := isInfixOfCL pat.data s.data

/-- Marker looked for in each Link-header entry. -/
def linkNextMarker : String := "rel=\"next\""

/-- URL extraction applied to a matching Link entry in _get_next_page_url
(src/api/client.py lines 329-331): portion before the first semicolon,
whitespace-stripped, then surrounding angle brackets stripped. -/
def processLinkEntry (entry : String) : String :=
  pyStripChars (pyStripWs ((pySplit entry ';').headD entry)) ['<', '>']

/-- For-loop of _get_next_page_url over the comma-separated entries: the first
entry containing the marker anywhere is processed and returned. -/
def findNextLink : List String → Option String
  | [] => none
  | entry :: rest =>
    if containsSub entry linkNextMarker then some (processLinkEntry entry)
    else findNextLink rest

/-- Continuation-link extraction CanvasAPIClient._get_next_page_url
(src/api/client.py lines 308-333): absent or empty Link header means no next
page; otherwise split on commas and scan for the marker. -/
def getNextPageUrl (r : HttpResponse) : Option String :=
  match headerGet r.headers "Link" with
  | none => none
  | some h => if h == "" then none else findNextLink (pySplit h ',')

/-- Spec-side description of the extraction, amended: first comma-separated
entry containing the marker substring, with the portion before its first
semicolon whitespace-trimmed and then angle-bracket-stripped. -/
def nextUrlAmended (r : HttpResponse) : Option String :=
  match headerGet r.headers "Link" with
  | none => none
  | some h =>
    if h == "" then none
    else ((pySplit h ',').find? (fun entry => containsSub entry linkNextMarker)).map
      processLinkEntry

/-- Claim-literal value of a matching entry: the portion before the first
semicolon with surrounding angle brackets stripped, and no whitespace trim,
exactly as the claim words it. -/
def claimedLinkValue (entry : String) : String :=
  pyStripChars ((pySplit entry ';').headD entry) ['<', '>']

/-- Claim-literal extraction, used only to exhibit where the claim's wording
deviates from the code. -/
def nextUrlClaimed (r : HttpResponse) : Option String :=
  match headerGet r.headers "Link" with
  | none => none
  | some h =>
    ((pySplit h ',').find? (fun entry => containsSub entry linkNextMarker)).map
      claimedLinkValue

theorem findNextLink_eq (l : List String) :
    findNextLink l =
      (l.find? (fun e => containsSub e linkNextMarker)).map processLinkEntry := by
  induction l with
  | nil => rfl
  | cons e rest ih =>
    simp only [findNextLink, List.find?]
    rcases hc : containsSub e linkNextMarker with _ | _
    · simpa [hc] using ih
    · simp [hc]

/-- Demonstration response whose matching Link entry carries whitespace around
the angle-bracketed URL, as real Link headers do after a comma split. -/
def linkResp : HttpResponse :=
  ⟨200, none, "", [("Link", "<a>; rel=\"prev\", <u> ; rel=\"next\"")]⟩

/-- C7 counterexample: on an entry whose bracketed URL is surrounded by
whitespace, the code first strips whitespace and returns "u", while the
claim's extraction (no whitespace trim) would return " <u> " because the
spaces keep the angle brackets from being surrounding. -/
theorem link_header_counterexample :
    getNextPageUrl linkResp = some "u" ∧
    nextUrlClaimed linkResp = some " <u> " ∧
    (" <u> " : String) ≠ "u" := by
  refine ⟨by decide, by decide, by decide⟩

/-- C7 amended: the extraction splits the header on commas, matches the first
entry containing the literal marker substring anywhere (permissive substring
match), and returns the portion before the first semicolon whitespace-trimmed
and angle-bracket-stripped; with no Link header, an empty header, or no
matching entry, there is no continuation. -/
theorem link_header_amended (r : HttpResponse) :
    getNextPageUrl r = nextUrlAmended r ∧
    (headerGet r.headers "Link" = none → getNextPageUrl r = none) ∧
    ∀ h, headerGet r.headers "Link" = some h →
      (∀ entry ∈ pySplit h ',', containsSub entry linkNextMarker = false) →
      getNextPageUrl r = none := by
  refine ⟨?_, ?_, ?_⟩
  · cases hh : headerGet r.headers "Link" with
    | none => simp [getNextPageUrl, nextUrlAmended, hh]
    | some h =>
      rcases he : h == "" with _ | _
      · simp [getNextPageUrl, nextUrlAmended, hh, he, findNextLink_eq]
      · simp [getNextPageUrl, nextUrlAmended, hh, he]
  · intro hnone
    simp [getNextPageUrl, hnone]
  · intro h hh hall
    rcases he : h == "" with _ | _
    · have hfind : (pySplit h ',').find? (fun e => containsSub e linkNextMarker) = none := by
        rw [List.find?_eq_none]
        intro x hx
        simp [hall x hx]
      simp [getNextPageUrl, hh, he, findNextLink_eq, hfind]
    · simp [getNextPageUrl, hh, he]

/-- C7 amended witness: a header with entries but no marker terminates
pagination. -/
theorem link_header_amended_witness :
    getNextPageUrl ⟨200, none, "", [("Link", "<a>; rel=\"prev\", <b>; rel=\"last\"")]⟩ =
      none := by
  refine (link_header_amended _).2.2 "<a>; rel=\"prev\", <b>; rel=\"last\"" (by decide) ?_
  decide

/-- Python iteration over a decoded JSON value, as consumed by
all_data.extend(page_data): a list yields its items, a dict yields its keys,
a string yields its characters, anything else raises TypeError. -/
def pyIter : Json → Except String (List Json)
  | Json.arr items => Except.ok items
  | Json.obj fields => Except.ok (fields.map (fun kv => Json.str kv.1))
  | Json.str s => Except.ok (s.data.map (fun ch => Json.str ⟨[ch]⟩))
  | _ => Except.error "TypeError"

/-- Membership test `"per_page" not in params` on the params dict. -/
def hasKey (params : List (String × PVal)) (k : String) : Bool :=
  params.any (fun kv => kv.1 == k)

/-- Default page size from src/config.py (Field default 100; per the spec,
environment-based overrides are out of scope). -/
def defaultPerPage : Int := 100

/-- per_page defaulting step at the top of get (src/api/client.py lines
158-162): replace a missing params dict by a fresh empty one, then, when
paginating and per_page is absent, insert the default; Python dict insertion
appends the new key at the end. The returned list is the content the
caller-supplied dict holds after the step (the code mutates it in place). -/
def getParamsAfter (params : Option (List (String × PVal))) (paginate : Bool) :
    List (String × PVal) :=
  let ps := params.getD []
  if paginate && !(hasKey ps "per_page") then
    ps ++ [("per_page", PVal.scalar (PScalar.pint defaultPerPage))]
  else ps

/-- While-loop of get following continuation links (src/api/client.py lines
182-193), accumulating into all_data. The fuel bounds the iteration count;
running out of fuel is modelled as a distinguished untyped fault so a
truncated accumulation is never returned. -/
def paginateLoop (fetch : String → HttpResponse) (endpoint : String) :
    Nat → List Json → Option String → Except Fault (List Json)
  | _, acc, none => Except.ok acc
  | 0, _, some _ => Except.error (Fault.untyped "OutOfFuel")
  | fuel + 1, acc, some url =>
    let r := fetch url
    if isSuccess r then
      match r.body with
      | none => Except.error (Fault.untyped "JSONDecodeError")
      | some j =>
        match pyIter j with
        | Except.error e => Except.error (Fault.untyped e)
        | Except.ok items => paginateLoop fetch endpoint fuel (acc ++ items) (getNextPageUrl r)
    else Except.error (classify r endpoint)

/-- Same traversal as paginateLoop but keeping each page's items separate, so
the accumulated result can be stated as a concatenation of pages. -/
def collectPages (fetch : String → HttpResponse) (endpoint : String) :
    Nat → Option String → Except Fault (List (List Json))
  | _, none => Except.ok []
  | 0, some _ => Except.error (Fault.untyped "OutOfFuel")
  | fuel + 1, some url =>
    let r := fetch url
    if isSuccess r then
      match r.body with
      | none => Except.error (Fault.untyped "JSONDecodeError")
      | some j =>
        match pyIter j with
        | Except.error e => Except.error (Fault.untyped e)
        | Except.ok items =>
          (collectPages fetch endpoint fuel (getNextPageUrl r)).map (fun ps => items :: ps)
    else Except.error (classify r endpoint)

/-- URL of the first request issued by get, after the per_page defaulting. -/
def firstUrl (c : Client) (endpoint : String)
    (params : Option (List (String × PVal))) : String :=
  buildUrl c endpoint (getParamsAfter params true)

/-- CanvasAPIClient.get (src/api/client.py lines 137-197) against an abstract
transport fetch. The first component is the returned value or the raised
fault; the second component is the content of the caller-supplied params dict
after the call (get mutates it only in the per_page defaulting step). -/
def clientGet (fetch : String → HttpResponse) (c : Client) (endpoint : String)
    (params : Option (List (String × PVal))) (paginate : Bool) (fuel : Nat) :
    Except Fault Json × List (String × PVal) :=
  let ps := getParamsAfter params paginate
  let url := buildUrl c endpoint ps
  let r := fetch url
  let result : Except Fault Json :=
    if isSuccess r then
      match r.body with
      | none => Except.error (Fault.untyped "JSONDecodeError")
      | some data =>
        match paginate, data with
        | true, Json.arr items =>
          (paginateLoop fetch endpoint fuel items (getNextPageUrl r)).map Json.arr
        | _, _ => Except.ok data
    else Except.error (classify r endpoint)
  (result, ps)

theorem paginateLoop_collectPages (fetch : String → HttpResponse) (endpoint : String) :
    ∀ (fuel : Nat) (next : Option String) (acc : List Json),
      paginateLoop fetch endpoint fuel acc next =
        (collectPages fetch endpoint fuel next).map (fun ps => acc ++ ps.flatten) := by
  intro fuel
  induction fuel with
  | zero =>
    intro next acc
    cases next with
    | none => simp [paginateLoop, collectPages, Except.map]
    | some url => simp [paginateLoop, collectPages, Except.map]
  | succ n ih =>
    intro next acc
    cases next with
    | none => simp [paginateLoop, collectPages, Except.map]
    | some url =>
      simp only [paginateLoop, collectPages]
      rcases hs : isSuccess (fetch url) with _ | _
      · simp [hs, Except.map]
      · cases hb : (fetch url).body with
        | none => simp [hs, hb, Except.map]
        | some j =>
          cases hi : pyIter j with
          | error e => simp [hs, hb, hi, Except.map]
          | ok items =>
            simp only [hs, hb, hi, if_true]
            rw [ih]
            cases hcp : collectPages fetch endpoint n (getNextPageUrl (fetch url)) with
            | error e => simp [hcp, Except.map]
            | ok ps => simp [hcp, Except.map, List.append_assoc]

/-- Client used by the synthetic pagination runs. -/
def demoClient : Client := ⟨"https://c.edu", "tok"⟩

/-- Page of n consecutive integer items starting at lo. -/
def demoPage (lo n : Nat) : List Json :=
  (List.range n).map (fun i => Json.num (Int.ofNat (lo + i)))

def demoUrl2 : String := "https://c.edu/api/v1/courses?page=2"

def demoUrl3 : String := "https://c.edu/api/v1/courses?page=3"

/-- Synthetic three-page server: pages of 100, 100 and 50 items, continuation
links on the first two pages only. -/
def demoFetch : String → HttpResponse := fun url =>
  if url == demoUrl2 then
    ⟨200, some (Json.arr (demoPage 100 100)), "",
      [("Link", "<" ++ demoUrl3 ++ ">; rel=\"next\"")]⟩
  else if url == demoUrl3 then
    ⟨200, some (Json.arr (demoPage 200 50)), "", []⟩
  else
    ⟨200, some (Json.arr (demoPage 0 100)), "",
      [("Link", "<" ++ demoUrl2 ++ ">; rel=\"next\"")]⟩

/-- Synthetic server whose second page fails with a 500. -/
def demoFetchFail : String → HttpResponse := fun url =>
  if url == demoUrl2 then ⟨500, none, "", []⟩
  else
    ⟨200, some (Json.arr (demoPage 0 100)), "",
      [("Link", "<" ++ demoUrl2 ++ ">; rel=\"next\"")]⟩

/-- C2: when the first response of a paginated get decodes to a list, the
returned value is exactly the page-by-page traversal's pages concatenated in
order (so any failing page's classified fault is the whole result and no
partial list survives); concretely, the synthetic 100+100+50 server yields the
250 items in order, and the server failing on page 2 yields its ServerFault
rather than a 100-item prefix. -/
theorem get_paginate_concatenates :
    (∀ (fetch : String → HttpResponse) (c : Client) (endpoint : String)
        (params : Option (List (String × PVal))) (fuel : Nat) (items : List Json),
      isSuccess (fetch (firstUrl c endpoint params)) = true →
      (fetch (firstUrl c endpoint params)).body = some (Json.arr items) →
      (clientGet fetch c endpoint params true fuel).1 =
        (collectPages fetch endpoint fuel
            (getNextPageUrl (fetch (firstUrl c endpoint params)))).map
          (fun pages => Json.arr (items ++ pages.flatten))) ∧
    (clientGet demoFetch demoClient "/courses" (some []) true 10).1 =
      Except.ok (Json.arr ((List.range 250).map (fun i => Json.num (Int.ofNat i)))) ∧
    (clientGet demoFetchFail demoClient "/courses" (some []) true 10).1 =
      Except.error (Fault.canvas (CanvasError.serverError 500 "/courses")) := by
  refine ⟨?_, ?_, ?_⟩
  · intro fetch c endpoint params fuel items hs hb
    simp only [clientGet, firstUrl] at hs hb ⊢
    rw [hs] at *
    simp only [if_true, hb]
    rw [paginateLoop_collectPages]
    generalize collectPages fetch endpoint fuel
        (getNextPageUrl (fetch (buildUrl c endpoint (getParamsAfter params true)))) = cp
    cases cp <;> rfl
  · rfl
  · rfl

/-- C2 witness: the general pagination equation instantiated on the synthetic
three-page server. -/
theorem get_paginate_concatenates_witness :
    isSuccess (demoFetch (firstUrl demoClient "/courses" (some []))) = true ∧
    (demoFetch (firstUrl demoClient "/courses" (some []))).body =
      some (Json.arr (demoPage 0 100)) ∧
    (clientGet demoFetch demoClient "/courses" (some []) true 10).1 =
      (collectPages demoFetch "/courses" 10
          (getNextPageUrl (demoFetch (firstUrl demoClient "/courses" (some []))))).map
        (fun pages => Json.arr (demoPage 0 100 ++ pages.flatten)) :=
  ⟨rfl, rfl,
    get_paginate_concatenates.1 demoFetch demoClient "/courses" (some []) 10
      (demoPage 0 100) rfl rfl⟩

/-- C10: with pagination requested and no per_page key, get inserts the default
per_page of 100 at the end of the caller-supplied mapping (the in-place dict
mutation is modelled by the second component, the mapping's content after the
call); with pagination off or the key already present, the mapping is
unchanged; and the defaulting step is the only mutation get performs. -/
theorem per_page_default_mutation (fetch : String → HttpResponse) (c : Client)
    (endpoint : String) (ps : List (String × PVal)) (fuel : Nat) :
    (hasKey ps "per_page" = false →
      (clientGet fetch c endpoint (some ps) true fuel).2 =
        ps ++ [("per_page", PVal.scalar (PScalar.pint defaultPerPage))]) ∧
    (hasKey ps "per_page" = true →
      (clientGet fetch c endpoint (some ps) true fuel).2 = ps) ∧
    (clientGet fetch c endpoint (some ps) false fuel).2 = ps ∧
    ∀ (pag : Bool), (clientGet fetch c endpoint (some ps) pag fuel).2 =
      getParamsAfter (some ps) pag := by
  refine ⟨?_, ?_, ?_, ?_⟩
  · intro h; simp [clientGet, getParamsAfter, h]
  · intro h; simp [clientGet, getParamsAfter, h]
  · simp [clientGet, getParamsAfter]
  · intro pag; rfl

/-- C10 witness: a mapping without per_page gains the default at the end; one
with per_page stays unchanged. -/
theorem per_page_default_mutation_witness :
    (clientGet demoFetch demoClient "/courses"
        (some [("enrollment_state", PVal.scalar (PScalar.pstr "active"))]) true 1).2 =
      [("enrollment_state", PVal.scalar (PScalar.pstr "active")),
       ("per_page", PVal.scalar (PScalar.pint 100))] ∧
    (clientGet demoFetch demoClient "/courses"
        (some [("per_page", PVal.scalar (PScalar.pint 50))]) true 1).2 =
      [("per_page", PVal.scalar (PScalar.pint 50))] :=
  ⟨(per_page_default_mutation demoFetch demoClient "/courses"
      [("enrollment_state", PVal.scalar (PScalar.pstr "active"))] 1).1 rfl,
    (per_page_default_mutation demoFetch demoClient "/courses"
      [("per_page", PVal.scalar (PScalar.pint 50))] 1).2.1 rfl⟩

/-- Record of one network request issued through the context's client,
identified by its URL. -/
abbrev NetCall := String

/-- Python exception leaving a tool's run(): a typed CanvasAPIError, a
ValueError from argument validation, a FastAPI HTTPException, or any other
exception; matched by the except clauses of call_tool in declaration order. -/
inductive PyErr where
  | canvasErr (e : CanvasError)
  | valueErr (m : String)
  | httpExc (statusCode : Nat) (detail : String)
  | otherErr (m : String)

/-- Effectful computation threading the list of network calls issued so far;
the final list models the observable I/O of one invocation. -/
abbrev Eff (α : Type) := List NetCall → Except PyErr α × List NetCall

/-- ToolContext (src/tools/base.py lines 11-41): per-call bundle of address,
credential and raw argument mapping. The lazily constructed client is not
represented: it carries no observable state beyond the bundle itself. -/
structure ToolCtx where
  apiUrl : String
  apiToken : String
  args : List (String × Json)

/-- Operation descriptor as registered and dispatched. validate_args receives
only the args dict (never the context or client), so it is modelled as a pure
function returning the ValueError message on violation; execute may issue
network calls, recorded in the Eff trace. -/
structure SimTool where
  name : String
  validate : List (String × Json) → Option String
  execute : ToolCtx → Eff Json

/-- BaseTool.run (src/tools/base.py lines 115-142): validate_args first, then
execute; the try/except around execute re-raises unchanged. -/
def runTool (t : SimTool) (ctx : ToolCtx) : Eff Json := fun calls =>
  match t.validate ctx.args with
  | some m => (Except.error (PyErr.valueErr m), calls)
  | none => t.execute ctx calls

/-- ToolRequest (src/api/models.py lines 13-19). -/
structure ToolRequest where
  tool : String
  args : List (String × Json)
  canvasApiUrl : String
  canvasApiToken : String

/-- ToolResponse (src/api/models.py lines 22-27): result is null exactly when
error carries a message. Every registered executor returns a dict, so a
success value is a proper Json value. -/
structure ToolResponse where
  result : Option Json
  error : Option String

/-- Status display in call_tool's Canvas-error branch:
`e.status_code if e.status_code else 'Unknown'` (a falsy code displays as
Unknown). -/
def statusDisplay (e : CanvasError) : String :=
  if e.statusCode == 0 then "Unknown" else toString e.statusCode

/-- Dispatcher call_tool (src/main.py lines 109-196). On a registry miss,
registry.get raises KeyError, the inner except turns it into an
HTTPException(404) whose detail lists list_tool_names() joined by ", ", and —
because that raise happens inside the outer try — the blanket
`except Exception` catches it and rewrites it into the envelope using str(e),
which for a Starlette HTTPException is "<status>: <detail>" (app.debug is
False, so no traceback). Found tools run with a fresh trace; each except
clause formats its own envelope error; no branch re-raises, so the function
is total. The registry list order models dict insertion order. -/
def callTool (tools : List SimTool) (req : ToolRequest) : ToolResponse × List NetCall :=
  match tools.find? (fun t => t.name == req.tool) with
  | none =>
    let detail := "Tool \x27" ++ req.tool ++ "\x27 not found. Available tools: " ++
      joinSep ", " (tools.map (fun t => t.name))
    (⟨none, some ("Unexpected error: 404: " ++ detail)⟩, [])
  | some t =>
    let ctx : ToolCtx := ⟨req.canvasApiUrl, req.canvasApiToken, req.args⟩
    match runTool t ctx [] with
    | (Except.ok v, calls) => (⟨some v, none⟩, calls)
    | (Except.error (PyErr.canvasErr e), calls) =>
      (⟨none, some ("Canvas API Error [" ++ statusDisplay e ++ "]: " ++ e.message)⟩, calls)
    | (Except.error (PyErr.valueErr m), calls) =>
      (⟨none, some ("Invalid arguments: " ++ m)⟩, calls)
    | (Except.error (PyErr.httpExc st d), calls) =>
      (⟨none, some ("Unexpected error: " ++ toString st ++ ": " ++ d)⟩, calls)
    | (Except.error (PyErr.otherErr m), calls) =>
      (⟨none, some ("Unexpected error: " ++ m)⟩, calls)

/-- Valid enrollment states accepted by list_courses
(src/tools/courses/list_courses.py line 41). -/
def validStates : List String := ["active", "invited_or_pending", "completed", "all"]

/-- Python equality of a decoded JSON value against a string literal. -/
def jsonEqStr (j : Json) (s : String) : Bool :=
  match j with
  | Json.str v => v == s
  | _ => false

/-- Python isinstance(v, int) together with the integer value: bool is an int
subclass in Python, so booleans count as 1 and 0. -/
def pyIsIntVal : Json → Option Int
  | Json.num n => some n
  | Json.bool b => some (if b then 1 else 0)
  | _ => none

/-- perPage check of ListCoursesTool.validate_args (lines 51-54): present and
not an int in [1, 100] is a violation. -/
def checkPerPage (args : List (String × Json)) : Option String :=
  match dictGet args "perPage" with
  | some v =>
    match pyIsIntVal v with
    | some n =>
      if n < 1 || 100 < n then some "perPage must be an integer between 1 and 100"
      else none
    | none => some "perPage must be an integer between 1 and 100"
  | none => none

/-- state check of ListCoursesTool.validate_args (lines 47-49): a present
non-list value is a violation; then the perPage check runs. -/
def checkState (args : List (String × Json)) : Option String :=
  match dictGet args "state" with
  | some (Json.arr _) => checkPerPage args
  | some _ => some "state must be a list"
  | none => checkPerPage args

/-- ListCoursesTool.validate_args (src/tools/courses/list_courses.py lines
37-54), checks in source order, first raised ValueError wins. -/
def listCoursesValidate (args : List (String × Json)) : Option String :=
  match dictGet args "enrollmentState" with
  | some v =>
    if validStates.any (fun s => jsonEqStr v s) then checkState args
    else some ("enrollmentState must be one of: " ++ joinSep ", " validStates)
  | none => checkState args

/-- Executor abstraction issuing one recorded network call and returning a
fixed dict; C9's theorem quantifies over arbitrary executors, this one only
witnesses that the recorded call does not happen on invalid arguments. -/
def demoExec (url : String) : ToolCtx → Eff Json := fun _ calls =>
  (Except.ok (Json.obj [("ok", Json.bool true)]), calls ++ [url])

/-- Demonstration tool with no validation constraints. -/
def toolA : SimTool := ⟨"get_course", fun _ => none, demoExec "GET /api/v1/courses/1"⟩

/-- list_courses with its real validator and an abstracted executor. -/
def listCoursesTool : SimTool :=
  ⟨"list_courses", listCoursesValidate, demoExec "GET /api/v1/courses"⟩

/-- C3: dispatching a name absent from the registry returns an envelope with a
null result and an error string enumerating every registered tool name in
registration order, with no network call and without raising (callTool is a
total function; the HTTPException raised inside the outer try is caught by the
blanket except clause). -/
theorem dispatch_unknown_tool (tools : List SimTool) (req : ToolRequest)
    (h : tools.find? (fun t => t.name == req.tool) = none) :
    callTool tools req =
      (⟨none, some ("Unexpected error: 404: " ++ ("Tool \x27" ++ req.tool ++
        "\x27 not found. Available tools: " ++
        joinSep ", " (tools.map (fun t => t.name))))⟩, []) := by
  simp [callTool, h]

/-- C3 witness: a two-tool registry and an unknown name produce the enumerated
error envelope. -/
theorem dispatch_unknown_tool_witness :
    callTool [toolA, listCoursesTool] ⟨"bogus", [], "u", "t"⟩ =
      (⟨none, some "Unexpected error: 404: Tool \x27bogus\x27 not found. Available tools: get_course, list_courses"⟩,
        []) := by
  rw [dispatch_unknown_tool [toolA, listCoursesTool] ⟨"bogus", [], "u", "t"⟩ rfl]
  rfl

/-- C8: for every registry and request, the dispatcher's envelope has exactly
one of result and error non-null — a successful run fills result, and every
failure shape (unknown tool, Canvas fault, ValueError, HTTPException, any
other exception) fills error — and the dispatcher is a total function, so no
fault escapes the invocation. -/
theorem envelope_exclusive (tools : List SimTool) (req : ToolRequest) :
    ((callTool tools req).1.result.isSome = true ∧ (callTool tools req).1.error = none) ∨
    ((callTool tools req).1.result = none ∧ (callTool tools req).1.error.isSome = true) := by
  unfold callTool
  cases hf : tools.find? (fun t => t.name == req.tool) with
  | none => right; simp
  | some t =>
    rcases hr : runTool t ⟨req.canvasApiUrl, req.canvasApiToken, req.args⟩ [] with ⟨res, calls⟩
    cases res with
    | ok v => left; simp [hr]
    | error e => cases e <;> (right; simp [hr])

/-- C9: when a tool's validator rejects the arguments, run raises the
ValueError before the executor is consulted (the equation's right-hand side
does not involve the executor) and with the network-call trace still empty,
and the dispatcher converts it into the Invalid-arguments envelope with zero
network calls issued. -/
theorem validation_before_io (tools : List SimTool) (req : ToolRequest)
    (t : SimTool) (m : String)
    (hfind : tools.find? (fun tl => tl.name == req.tool) = some t)
    (hval : t.validate req.args = some m) :
    runTool t ⟨req.canvasApiUrl, req.canvasApiToken, req.args⟩ [] =
      (Except.error (PyErr.valueErr m), []) ∧
    callTool tools req = (⟨none, some ("Invalid arguments: " ++ m)⟩, []) := by
  have h1 : runTool t ⟨req.canvasApiUrl, req.canvasApiToken, req.args⟩ [] =
      (Except.error (PyErr.valueErr m), []) := by
    simp [runTool, hval]
  refine ⟨h1, ?_⟩
  simp [callTool, hfind, h1]

/-- C9 witness: list_courses with an invalid enrollmentState is rejected by the
real validator with an empty trace, and the dispatcher reports it with zero
network calls. -/
theorem validation_before_io_witness :
    runTool listCoursesTool ⟨"u", "t", [("enrollmentState", Json.str "nope")]⟩ [] =
      (Except.error (PyErr.valueErr
        "enrollmentState must be one of: active, invited_or_pending, completed, all"), []) ∧
    callTool [toolA, listCoursesTool]
        ⟨"list_courses", [("enrollmentState", Json.str "nope")], "u", "t"⟩ =
      (⟨none,
        some "Invalid arguments: enrollmentState must be one of: active, invited_or_pending, completed, all"⟩,
        []) :=
  validation_before_io [toolA, listCoursesTool]
    ⟨"list_courses", [("enrollmentState", Json.str "nope")], "u", "t"⟩
    listCoursesTool
    "enrollmentState must be one of: active, invited_or_pending, completed, all"
    rfl rfl

end CanvasMCP
